import Mathlib

/-!
Shallow embedding of the finance-ai-agent fetch layer
(`src/data_fetchers.py`, `src/yfinance_data_handler.py`).

Decoded JSON bodies are modelled by the inductive `Json`; Python-level
semantics that the source relies on (truthiness, the `in` operator,
subscripting, `dict.get`, `float(...)` coercion) are modelled by explicit
functions that return `Except PyErr _` where the Python operation can raise.
The network is an oracle (`ReqResult`) describing what `requests.get`
produces for the single outbound call an operation makes; each fetch
operation returns its result together with the number of transport requests
issued and the number of diagnostic `print` emissions.
-/

namespace FinanceAgent

/-- Decoded JSON value, as produced by `response.json()`. -/
inductive Json where
  | null
  | bool (b : Bool)
  | num (q : Rat)
  | str (s : String)
  | arr (xs : List Json)
  | obj (kvs : List (String × Json))

/-- Python exception classes that can escape the fetch operations
(`except (KeyError, ValueError)` catches only the first two). -/
inductive PyErr where
  | keyError
  | valueError
  | typeError
  | attributeError
deriving DecidableEq

/-- Python truthiness of a decoded JSON value (`if data:` / `if current_price:`). -/
def Json.truthy : Json → Bool
  | .null => false
  | .bool b => b
  | .num q => q ≠ 0
  | .str s => s ≠ ""
  | .arr xs => !xs.isEmpty
  | .obj kvs => !kvs.isEmpty

/-- Python equality between a JSON value and a string literal (`x == "ok"`):
true exactly when the value is that string. -/
def Json.eqStr : Json → String → Bool
  | .str s, k => s = k
  | _, _ => false

/-- Does the character list `sub` occur at the start of `l`? -/
def startsW : List Char → List Char → Bool
  | [], _ => true
  | _ :: _, [] => false
  | a :: as, b :: bs => (a = b) && startsW as bs

/-- Does the character list `sub` occur anywhere in `l`?
(Python substring membership `sub in s`.) -/
def containsSub (sub : List Char) : List Char → Bool
  | [] => sub.isEmpty
  | b :: bs => startsW sub (b :: bs) || containsSub sub bs

/-- Python `key in data` for a string key: key membership for a dict,
element membership for a list, substring test for a string, and a
`TypeError` for null, booleans and numbers (not iterable). -/
def Json.hasKey : Json → String → Except PyErr Bool
  | .obj kvs, k => .ok (kvs.lookup k).isSome
  | .arr xs, k => .ok (xs.any (Json.eqStr · k))
  | .str s, k => .ok (containsSub k.data s.data)
  | _, _ => .error .typeError

/-- Python `data[key]` for a string key: dict lookup (`KeyError` when the
key is missing); a `TypeError` on every non-dict value (list and string
subscripts must be integers, scalars are not subscriptable). -/
def Json.sub : Json → String → Except PyErr Json
  | .obj kvs, k =>
    match kvs.lookup k with
    | some v => .ok v
    | none => .error .keyError
  | _, _ => .error .typeError

/-- Python `data.get(key, default)`: defined for dicts, an
`AttributeError` on every other value. -/
def Json.getD : Json → String → Json → Except PyErr Json
  | .obj kvs, k, dflt => .ok ((kvs.lookup k).getD dflt)
  | _, _, _ => .error .attributeError

/-- Digit accumulation for the decimal parser. -/
def digitsToNat : List Char → Nat → Nat
  | [], acc => acc
  | c :: cs, acc => digitsToNat cs (acc * 10 + (c.toNat - 48))

/-- Model of Python `float(s)` on a string: optional sign, decimal digits
with optional fraction, optional exponent.  (Leading/trailing whitespace,
underscores and `inf`/`nan` spellings are out of scope: no claim exercises
them.)  `none` models `ValueError`. -/
def parseFloat (s : String) : Option Rat :=
  let p1 : Rat × List Char :=
    match s.data with
    | '-' :: t => (-1, t)
    | '+' :: t => (1, t)
    | cs => (1, cs)
  let ipRest := p1.2.span Char.isDigit
  let fpRest : Option (List Char) × List Char :=
    match ipRest.2 with
    | '.' :: t => (some (t.takeWhile Char.isDigit), t.dropWhile Char.isDigit)
    | r => (none, r)
  if ipRest.1.isEmpty && (fpRest.1.map List.isEmpty).getD true then none
  else
    let mant : Rat := (digitsToNat ipRest.1 0 : Rat) +
      (match fpRest.1 with
       | some f => (digitsToNat f 0 : Rat) / ((10 : Rat) ^ f.length)
       | none => 0)
    match fpRest.2 with
    | [] => some (p1.1 * mant)
    | e :: t =>
      if e = 'e' ∨ e = 'E' then
        let p2 : Bool × List Char :=
          match t with
          | '-' :: t2 => (true, t2)
          | '+' :: t2 => (false, t2)
          | t2 => (false, t2)
        if p2.2.isEmpty || p2.2.any (fun c => !c.isDigit) then none
        else
          let ex := digitsToNat p2.2 0
          some (p1.1 * mant *
            (if p2.1 then 1 / ((10 : Rat) ^ ex) else (10 : Rat) ^ ex))
      else none

/-- Model of Python `float(x)` on a decoded JSON value: identity on
numbers, 0/1 on booleans, decimal parsing on strings (`ValueError` when
unparseable), and a `TypeError` on null, lists and dicts. -/
def pyFloat : Json → Except PyErr Rat
  | .num q => .ok q
  | .bool b => .ok (if b then 1 else 0)
  | .str s =>
    match parseFloat s with
    | some q => .ok q
    | none => .error .valueError
  | _ => .error .typeError

/-- An HTTP response as seen by the client: status code and the decoded
JSON body (`none` when `response.json()` would raise `ValueError`). -/
structure Response where
  status : Nat
  body : Option Json

/-- What `requests.get` does on the one outbound call of an operation:
a transport-level exception (connection error, timeout, or any other
`RequestException`) or a response. -/
inductive ReqResult where
  | connectionError
  | timeout
  | requestError
  | resp (r : Response)

/-- Embedding of `FinancialDataFetcher._make_request` /
`NewsFetcher._make_request` (the two are textually identical): returns the
decoded body paired with the number of diagnostic prints.
`response.raise_for_status()` raises `HTTPError` exactly for status codes
400–599; every `except` clause prints one diagnostic and falls through to
`return None`. -/
def make_request (t : ReqResult) : Option Json × Nat :=
  match t with
  | .connectionError => (none, 1)
  | .timeout => (none, 1)
  | .requestError => (none, 1)
  | .resp r =>
    if 400 ≤ r.status ∧ r.status < 600 then (none, 1)
    else
      match r.body with
      | some j => (some j, 0)
      | none => (none, 1)

/-- `FinancialDataFetcher`: holds the Alpha Vantage key loaded from the
environment (`os.getenv` yields `None` when unset, hence `Option`). -/
structure FinancialDataFetcher where
  alpha_vantage_api_key : Option String

/-- `NewsFetcher`: holds the News API key from the environment. -/
structure NewsFetcher where
  news_api_key : Option String

/-- Python truthiness of an optional string credential
(`if not self.alpha_vantage_api_key:`): `None` and `""` are falsy. -/
def optStrTruthy : Option String → Bool
  | none => false
  | some s => s ≠ ""

/-- Outcome of one fetch-operation call: the Python-level result (`error`
models an uncaught exception escaping the operation), the number of
transport requests issued, and the number of diagnostic prints. -/
structure FetchOut (α : Type) where
  result : Except PyErr α
  requests : Nat
  diags : Nat

/-- The `try: float(data["Global Quote"]["05. price"])` expression of
`get_us_stock_price` (the part inside the `try`): the first exception of
the left-to-right evaluation propagates. -/
def avPrice (d : Json) : Except PyErr Rat :=
  match d.sub "Global Quote" with
  | .error e => .error e
  | .ok gq =>
    match gq.sub "05. price" with
    | .error e => .error e
    | .ok p => pyFloat p

/-- The `try: float(data[crypto_id][vs_currency])` expression of
`get_crypto_price` (the part inside the `try`). -/
def cgPrice (d : Json) (crypto_id vs_currency : String) : Except PyErr Rat :=
  match d.sub crypto_id with
  | .error e => .error e
  | .ok a =>
    match a.sub vs_currency with
    | .error e => .error e
    | .ok b => pyFloat b

/-- Embedding of `FinancialDataFetcher.get_us_stock_price`.  The
transport oracle `t` describes what the single `requests.get` of the
underlying `_make_request` call produces; `symbol` only shapes the URL.
The `except (KeyError, ValueError)` around the float conversion catches
exactly those two classes; every other exception escapes. -/
def get_us_stock_price (f : FinancialDataFetcher) (t : ReqResult)
    (symbol : String) : FetchOut (Option Rat) :=
  if optStrTruthy f.alpha_vantage_api_key then
    let g := make_request t
    match g.1 with
    | none => ⟨.ok none, 1, g.2⟩
    | some d =>
      if d.truthy then
        match d.hasKey "Global Quote" with
        | .error e => ⟨.error e, 1, g.2⟩
        | .ok true =>
          match avPrice d with
          | .ok price => ⟨.ok (some price), 1, g.2⟩
          | .error .keyError => ⟨.ok none, 1, g.2 + 1⟩
          | .error .valueError => ⟨.ok none, 1, g.2 + 1⟩
          | .error e => ⟨.error e, 1, g.2⟩
        | .ok false =>
          match d.hasKey "Error Message" with
          | .error e => ⟨.error e, 1, g.2⟩
          | .ok true => ⟨.ok none, 1, g.2 + 1⟩
          | .ok false => ⟨.ok none, 1, g.2 + 1⟩
      else ⟨.ok none, 1, g.2⟩
  else ⟨.ok none, 0, 1⟩

/-- Embedding of `FinancialDataFetcher.get_crypto_price`.  The condition
`crypto_id in data and vs_currency in data[crypto_id]` is evaluated
outside any `try`, so a `TypeError` raised there escapes; only the float
conversion is guarded by `except (KeyError, ValueError)`. -/
def get_crypto_price (f : FinancialDataFetcher) (t : ReqResult)
    (crypto_id vs_currency : String) : FetchOut (Option Rat) :=
  let g := make_request t
  match g.1 with
  | none => ⟨.ok none, 1, g.2⟩
  | some d =>
    if d.truthy then
      match d.hasKey crypto_id with
      | .error e => ⟨.error e, 1, g.2⟩
      | .ok false => ⟨.ok none, 1, g.2 + 1⟩
      | .ok true =>
        match d.sub crypto_id with
        | .error e => ⟨.error e, 1, g.2⟩
        | .ok inner =>
          match inner.hasKey vs_currency with
          | .error e => ⟨.error e, 1, g.2⟩
          | .ok false => ⟨.ok none, 1, g.2 + 1⟩
          | .ok true =>
            match cgPrice d crypto_id vs_currency with
            | .ok price => ⟨.ok (some price), 1, g.2⟩
            | .error .keyError => ⟨.ok none, 1, g.2 + 1⟩
            | .error .valueError => ⟨.ok none, 1, g.2 + 1⟩
            | .error e => ⟨.error e, 1, g.2⟩
    else ⟨.ok none, 1, g.2⟩

/-- Embedding of `NewsFetcher.get_financial_news`.  The query parameters
(`query`, `language`, `page_size`, `sort_by`) only populate the request
and are absorbed by the transport oracle.  On success the raw value under
`"articles"` is returned (the code does not validate that it is a list);
the absent result is the empty list.  `data.get(...)` on a truthy
non-dict body raises `AttributeError`, which nothing catches. -/
def get_financial_news (f : NewsFetcher) (t : ReqResult) : FetchOut Json :=
  if optStrTruthy f.news_api_key then
    let g := make_request t
    match g.1 with
    | none => ⟨.ok (.arr []), 1, g.2⟩
    | some d =>
      if d.truthy then
        match d.getD "status" .null with
        | .error e => ⟨.error e, 1, g.2⟩
        | .ok st =>
          if st.eqStr "ok" then
            match d.getD "articles" (.arr []) with
            | .error e => ⟨.error e, 1, g.2⟩
            | .ok articles => ⟨.ok articles, 1, g.2⟩
          else
            match d.getD "message" (.str "Unknown error") with
            | .error e => ⟨.error e, 1, g.2⟩
            | .ok _ => ⟨.ok (.arr []), 1, g.2 + 1⟩
      else ⟨.ok (.arr []), 1, g.2⟩
  else ⟨.ok (.arr []), 0, 1⟩

/-- Outcome of a call into the wrapped yfinance library: a value, or an
exception raised inside the library (caught by `except Exception`). -/
inductive LibOutcome (α : Type) where
  | ok (a : α)
  | raises

/-- The historical query actually passed to `ticker.history`: explicit
start/end dates, or a relative period — each with an interval. -/
inductive HistQuery where
  | byDates (startDate endDate interval : String)
  | byPeriod (period interval : String)

/-- A pandas DataFrame of historical bars, modelled as its list of rows
(the handler only tests emptiness and otherwise passes it through). -/
abbrev DataFrame : Type := List Json

/-- Oracle for one `yf.Ticker(symbol)` object: the `info` mapping (or a
raised exception) and the behaviour of `ticker.history` per query. -/
structure YfTicker where
  info : LibOutcome (List (String × Json))
  history : HistQuery → LibOutcome DataFrame

/-- Embedding of `YFinanceDataHandler.fetch_current_price`: reads
`info.get('regularMarketPrice')` and returns it iff it is truthy; any
library exception is caught.  The second component counts diagnostic
prints. -/
def fetch_current_price (tk : YfTicker) (ticker_symbol : String) :
    Option Json × Nat :=
  match tk.info with
  | .raises => (none, 1)
  | .ok info =>
    let current_price := (info.lookup "regularMarketPrice").getD .null
    if current_price.truthy then (some current_price, 0)
    else (none, 1)

/-- Embedding of `YFinanceDataHandler.fetch_historical_data`:
`if start_date and end_date:` selects the explicit-dates query (string
truthiness, so `None` and `""` both fall back to period+interval); an
empty result or a library exception yields `None` with one diagnostic. -/
def fetch_historical_data (tk : YfTicker) (ticker_symbol : String)
    (start_date end_date : Option String) (period interval : String) :
    Option DataFrame × Nat :=
  let q : HistQuery :=
    if optStrTruthy start_date && optStrTruthy end_date then
      .byDates (start_date.getD "") (end_date.getD "") interval
    else .byPeriod period interval
  match tk.history q with
  | .raises => (none, 1)
  | .ok hist_data =>
    if hist_data.isEmpty then (none, 1) else (some hist_data, 0)

/-- Embedding of `FinancialDataFetcher.get_indian_stock_price`: pure
delegation to the yfinance handler. -/
def get_indian_stock_price (f : FinancialDataFetcher) (tk : YfTicker)
    (symbol : String) : Option Json × Nat :=
  fetch_current_price tk symbol

/-- Embedding of `FinancialDataFetcher.get_indian_stock_historical_data`:
pure delegation to the yfinance handler (defaults `period="1mo"`,
`interval="1d"` are supplied by callers here). -/
def get_indian_stock_historical_data (f : FinancialDataFetcher)
    (tk : YfTicker) (symbol : String) (start_date end_date : Option String)
    (period interval : String) : Option DataFrame × Nat :=
  fetch_historical_data tk symbol start_date end_date period interval

/-- Claim C1: the spec demands that every fetch operation return a value
of its declared shape or its absent value for every decoded JSON body,
with no exception escaping — in particular for `get_financial_news` on a
non-mapping body.  The code violates this: with the news credential set
and a 2xx response decoding to the JSON list `["x"]` (truthy, non-dict),
`data.get("status")` raises `AttributeError`, which escapes the
operation. -/
theorem news_nonmapping_body_raises_attribute_error :
    get_financial_news ⟨some "k"⟩ (.resp ⟨200, some (.arr [.str "x"])⟩) =
      ⟨.error .attributeError, 1, 0⟩ := rfl

/-- Claim C2, counterexample: the claim says `_make_request` returns
`None` with one diagnostic on every non-2xx HTTP status, but a status-300
response whose body parses as JSON is returned unchanged with zero
diagnostics (`raise_for_status` only raises for 4xx/5xx). -/
theorem make_request_non2xx_counterexample :
    make_request (.resp ⟨300, some (.num 1)⟩) = (some (.num 1), 0) ∧
      ¬ (200 ≤ 300 ∧ 300 ≤ 299) := ⟨rfl, by decide⟩

/-- Claim C2, amended: `_make_request` returns the decoded JSON body on a
response with status outside 400–599 whose body parses as JSON, and
returns `None` on each of the five failure classes (connection failure,
timeout, HTTP status 400–599, any other transport-level error,
JSON-decode failure), re-raising none of them; it emits exactly one
diagnostic per failing call and zero on a successful call. -/
theorem make_request_contract :
    (make_request .connectionError = (none, 1)) ∧
    (make_request .timeout = (none, 1)) ∧
    (make_request .requestError = (none, 1)) ∧
    (∀ (st : Nat) (b : Option Json), 400 ≤ st → st < 600 →
      make_request (.resp ⟨st, b⟩) = (none, 1)) ∧
    (∀ (st : Nat), ¬ (400 ≤ st ∧ st < 600) →
      make_request (.resp ⟨st, none⟩) = (none, 1)) ∧
    (∀ (st : Nat) (j : Json), ¬ (400 ≤ st ∧ st < 600) →
      make_request (.resp ⟨st, some j⟩) = (some j, 0)) := by
  refine ⟨rfl, rfl, rfl, ?_, ?_, ?_⟩
  · intro st b h1 h2
    simp [make_request, h1, h2]
  · intro st h
    simp [make_request, h]
  · intro st j h
    simp [make_request, h]

/-- Claim C2, witness: the contract applied at concrete inputs (an HTTP
404 failure and a 200 success). -/
theorem make_request_contract_witness :
    make_request (.resp ⟨204, none⟩) = (none, 1) ∧
    make_request (.resp ⟨500, some (.obj [])⟩) = (none, 1) ∧
    make_request (.resp ⟨200, some (.obj [])⟩) = (some (.obj []), 0) :=
  ⟨make_request_contract.2.2.2.2.1 204 (by decide),
   make_request_contract.2.2.2.1 500 (some (.obj [])) (by decide) (by decide),
   make_request_contract.2.2.2.2.2 200 (.obj []) (by decide)⟩

/-- Claim C3: whenever a required credential is absent (unset or the
empty string, both falsy), `get_us_stock_price` returns `None` and
`get_financial_news` returns the empty list, each with zero transport
requests and without crashing; the remaining fetch operations
(`get_crypto_price` and the two yfinance delegations) consult no
credential at all, so their behaviour is independent of the stored
key. -/
theorem missing_credential_skips_transport :
    ∀ (k : Option String) (t : ReqResult) (symbol : String),
      optStrTruthy k = false →
      get_us_stock_price ⟨k⟩ t symbol = ⟨.ok none, 0, 1⟩ ∧
      get_financial_news ⟨k⟩ t = ⟨.ok (.arr []), 0, 1⟩ ∧
      (∀ (k' : Option String) (tk : YfTicker) (cur : String)
          (sd ed : Option String) (p i : String),
        get_crypto_price ⟨k⟩ t symbol cur = get_crypto_price ⟨k'⟩ t symbol cur ∧
        get_indian_stock_price ⟨k⟩ tk symbol = get_indian_stock_price ⟨k'⟩ tk symbol ∧
        get_indian_stock_historical_data ⟨k⟩ tk symbol sd ed p i =
          get_indian_stock_historical_data ⟨k'⟩ tk symbol sd ed p i) := by
  intro k t symbol hk
  refine ⟨?_, ?_, ?_⟩
  · simp [get_us_stock_price, hk]
  · simp [get_financial_news, hk]
  · intro k' tk cur sd ed p i
    exact ⟨rfl, rfl, rfl⟩

/-- Claim C3, witness: the theorem applied with the key unset. -/
theorem missing_credential_skips_transport_witness :
    get_us_stock_price ⟨none⟩ .timeout "AAPL" = ⟨.ok none, 0, 1⟩ ∧
    get_financial_news ⟨none⟩ .timeout = ⟨.ok (.arr []), 0, 1⟩ :=
  ⟨(missing_credential_skips_transport none .timeout "AAPL" rfl).1,
   (missing_credential_skips_transport none .timeout "AAPL" rfl).2.1⟩

/-- Claim C9: `get_crypto_price` consults no credential — its outcome is
identical under any two credential configurations with the same
transport behaviour — and it issues exactly one transport request on
every call (no credential guard short-circuits it). -/
theorem crypto_ignores_credentials :
    ∀ (f f' : FinancialDataFetcher) (t : ReqResult) (id cur : String),
      get_crypto_price f t id cur = get_crypto_price f' t id cur ∧
      (get_crypto_price f t id cur).requests = 1 := by
  intro f f' t id cur
  refine ⟨rfl, ?_⟩
  dsimp only [get_crypto_price]
  repeat first | rfl | split

/-- Claim C10: in `get_us_stock_price`, `get_crypto_price` and
`get_financial_news`, a successfully decoded but falsy body (e.g. the
empty JSON object) takes the same path as a gateway failure: the
operation returns its absent value with zero diagnostics, never reaching
the key-lookup or error-reporting branches, and its result value equals
the one produced under a transport failure. -/
theorem falsy_body_treated_as_failure :
    ∀ (k : String) (d : Json) (symbol id cur : String),
      k ≠ "" → d.truthy = false →
      get_us_stock_price ⟨some k⟩ (.resp ⟨200, some d⟩) symbol = ⟨.ok none, 1, 0⟩ ∧
      get_crypto_price ⟨some k⟩ (.resp ⟨200, some d⟩) id cur = ⟨.ok none, 1, 0⟩ ∧
      get_financial_news ⟨some k⟩ (.resp ⟨200, some d⟩) = ⟨.ok (.arr []), 1, 0⟩ ∧
      (get_us_stock_price ⟨some k⟩ (.resp ⟨200, some d⟩) symbol).result =
        (get_us_stock_price ⟨some k⟩ .connectionError symbol).result ∧
      (get_crypto_price ⟨some k⟩ (.resp ⟨200, some d⟩) id cur).result =
        (get_crypto_price ⟨some k⟩ .connectionError id cur).result ∧
      (get_financial_news ⟨some k⟩ (.resp ⟨200, some d⟩)).result =
        (get_financial_news ⟨some k⟩ .connectionError).result := by
  intro k d symbol id cur hk hd
  refine ⟨?_, ?_, ?_, ?_, ?_, ?_⟩ <;>
    simp [get_us_stock_price, get_crypto_price, get_financial_news,
      make_request, optStrTruthy, hk, hd]

/-- Claim C10, witness: the theorem applied at the empty JSON object. -/
theorem falsy_body_treated_as_failure_witness :
    get_us_stock_price ⟨some "k"⟩ (.resp ⟨200, some (.obj [])⟩) "AAPL" =
      ⟨.ok none, 1, 0⟩ ∧
    get_financial_news ⟨some "k"⟩ (.resp ⟨200, some (.obj [])⟩) =
      ⟨.ok (.arr []), 1, 0⟩ :=
  ⟨(falsy_body_treated_as_failure "k" (.obj []) "AAPL" "bitcoin" "usd"
      (by decide) rfl).1,
   (falsy_body_treated_as_failure "k" (.obj []) "AAPL" "bitcoin" "usd"
      (by decide) rfl).2.2.1⟩

/-- Claim C4: with the Alpha Vantage key set, `get_us_stock_price`
returns `150.25` on the body `{"Global Quote": {"05. price": "150.25"}}`;
returns `None` on a body with `"Error Message"` (and no quote), on any
object body missing the `"Global Quote"` key, on a quote object missing
`"05. price"`, and on a price string that fails float parsing. -/
theorem us_stock_price_outcomes :
    ∀ (k symbol : String), k ≠ "" →
      ((get_us_stock_price ⟨some k⟩
          (.resp ⟨200, some (.obj [("Global Quote",
            .obj [("05. price", .str "150.25")])])⟩) symbol).result =
        .ok (some (150.25 : Rat))) ∧
      ((get_us_stock_price ⟨some k⟩
          (.resp ⟨200, some (.obj [("Error Message",
            .str "Invalid API call")])⟩) symbol).result = .ok none) ∧
      (∀ (kvs : List (String × Json)), kvs.lookup "Global Quote" = none →
        (get_us_stock_price ⟨some k⟩
          (.resp ⟨200, some (.obj kvs)⟩) symbol).result = .ok none) ∧
      (∀ (gq : List (String × Json)), gq.lookup "05. price" = none →
        (get_us_stock_price ⟨some k⟩
          (.resp ⟨200, some (.obj [("Global Quote", .obj gq)])⟩)
          symbol).result = .ok none) ∧
      (∀ (s : String), parseFloat s = none →
        (get_us_stock_price ⟨some k⟩
          (.resp ⟨200, some (.obj [("Global Quote",
            .obj [("05. price", .str s)])])⟩) symbol).result = .ok none) := by
  intro k symbol hk
  have hg : optStrTruthy (some k) = true := by simp [optStrTruthy, hk]
  refine ⟨?_, ?_, ?_, ?_, ?_⟩
  · simp [get_us_stock_price, hg, make_request, Json.truthy, Json.hasKey,
      avPrice, Json.sub, pyFloat, parseFloat, digitsToNat, List.lookup]
    all_goals norm_num
  · simp only [get_us_stock_price, hg, if_true]
    rfl
  · intro kvs h
    cases he : kvs.isEmpty with
    | true =>
      simp [get_us_stock_price, make_request, hg, Json.truthy, he]
    | false =>
      rcases hm : kvs.lookup "Error Message" with _ | v <;>
        simp [get_us_stock_price, make_request, hg, Json.truthy, he,
          Json.hasKey, h, hm]
  · intro gq h
    simp [get_us_stock_price, make_request, hg, Json.truthy, Json.hasKey,
      avPrice, Json.sub, List.lookup, h]
  · intro s h
    simp [get_us_stock_price, make_request, hg, Json.truthy, Json.hasKey,
      avPrice, Json.sub, pyFloat, List.lookup, h]

/-- Claim C4, witness: the theorem applied at a concrete key and at
concrete bodies exercising each branch (the quote body, the error body,
a body without the quote key, a quote object without the price key, and
an unparseable price string). -/
theorem us_stock_price_outcomes_witness :
    ((get_us_stock_price ⟨some "k"⟩
        (.resp ⟨200, some (.obj [("Global Quote",
          .obj [("05. price", .str "150.25")])])⟩) "AAPL").result =
      .ok (some (150.25 : Rat))) ∧
    ((get_us_stock_price ⟨some "k"⟩
        (.resp ⟨200, some (.obj [("Error Message",
          .str "Invalid API call")])⟩) "AAPL").result = .ok none) ∧
    ((get_us_stock_price ⟨some "k"⟩
        (.resp ⟨200, some (.obj [])⟩) "AAPL").result = .ok none) ∧
    ((get_us_stock_price ⟨some "k"⟩
        (.resp ⟨200, some (.obj [("Global Quote", .obj [])])⟩)
        "AAPL").result = .ok none) ∧
    ((get_us_stock_price ⟨some "k"⟩
        (.resp ⟨200, some (.obj [("Global Quote",
          .obj [("05. price", .str "abc")])])⟩) "AAPL").result = .ok none) :=
  ⟨(us_stock_price_outcomes "k" "AAPL" (by decide)).1,
   (us_stock_price_outcomes "k" "AAPL" (by decide)).2.1,
   (us_stock_price_outcomes "k" "AAPL" (by decide)).2.2.1 [] rfl,
   (us_stock_price_outcomes "k" "AAPL" (by decide)).2.2.2.1 [] rfl,
   (us_stock_price_outcomes "k" "AAPL" (by decide)).2.2.2.2 "abc" rfl⟩

/-- Claim C7: `get_crypto_price ("bitcoin", "usd")` returns `67000.5` on
the body `{"bitcoin": {"usd": 67000.5}}` and `None` on
`{"bitcoin": {}}`; in general on an object body it returns `None`
whenever the asset-id level or the currency level of the two-level
lookup is absent, and when a present price string fails numeric
coercion. -/
theorem crypto_price_outcomes :
    ∀ (f : FinancialDataFetcher) (id cur : String),
      ((get_crypto_price f (.resp ⟨200, some (.obj [("bitcoin",
          .obj [("usd", .num (67000.5 : Rat))])])⟩) "bitcoin" "usd").result =
        .ok (some (67000.5 : Rat))) ∧
      ((get_crypto_price f (.resp ⟨200, some (.obj [("bitcoin",
          .obj [])])⟩) "bitcoin" "usd").result = .ok none) ∧
      (∀ (kvs : List (String × Json)), kvs.lookup id = none →
        (get_crypto_price f (.resp ⟨200, some (.obj kvs)⟩) id cur).result =
          .ok none) ∧
      (∀ (inner : List (String × Json)), inner.lookup cur = none →
        (get_crypto_price f
          (.resp ⟨200, some (.obj [(id, .obj inner)])⟩) id cur).result =
          .ok none) ∧
      (∀ (s : String), parseFloat s = none →
        (get_crypto_price f
          (.resp ⟨200, some (.obj [(id, .obj [(cur, .str s)])])⟩)
          id cur).result = .ok none) := by
  intro f id cur
  refine ⟨?_, rfl, ?_, ?_, ?_⟩
  · simp [get_crypto_price, make_request, Json.truthy, Json.hasKey,
      cgPrice, Json.sub, pyFloat, List.lookup]
  · intro kvs h
    cases he : kvs.isEmpty with
    | true =>
      simp [get_crypto_price, make_request, Json.truthy, he]
    | false =>
      simp [get_crypto_price, make_request, Json.truthy, he,
        Json.hasKey, h]
  · intro inner h
    simp [get_crypto_price, make_request, Json.truthy, Json.hasKey,
      Json.sub, List.lookup, h]
  · intro s h
    simp [get_crypto_price, make_request, Json.truthy, Json.hasKey,
      cgPrice, Json.sub, pyFloat, List.lookup, h]

/-- Claim C7, witness: the theorem applied at concrete bodies for each
branch (missing asset id, missing currency, unparseable price). -/
theorem crypto_price_outcomes_witness :
    ((get_crypto_price ⟨none⟩ (.resp ⟨200, some (.obj [("bitcoin",
        .obj [("usd", .num (67000.5 : Rat))])])⟩) "bitcoin" "usd").result =
      .ok (some (67000.5 : Rat))) ∧
    ((get_crypto_price ⟨none⟩
        (.resp ⟨200, some (.obj [])⟩) "bitcoin" "usd").result = .ok none) ∧
    ((get_crypto_price ⟨none⟩
        (.resp ⟨200, some (.obj [("bitcoin", .obj [])])⟩)
        "bitcoin" "usd").result = .ok none) ∧
    ((get_crypto_price ⟨none⟩
        (.resp ⟨200, some (.obj [("bitcoin",
          .obj [("usd", .str "oops")])])⟩) "bitcoin" "usd").result =
      .ok none) :=
  ⟨(crypto_price_outcomes ⟨none⟩ "bitcoin" "usd").1,
   (crypto_price_outcomes ⟨none⟩ "bitcoin" "usd").2.2.1 [] rfl,
   (crypto_price_outcomes ⟨none⟩ "bitcoin" "usd").2.2.2.1 [] rfl,
   (crypto_price_outcomes ⟨none⟩ "bitcoin" "usd").2.2.2.2 "oops" rfl⟩

/-- Claim C5: `fetch_current_price` (and `get_indian_stock_price`, which
delegates to it) returns the `regularMarketPrice` value of the library's
info structure iff that value is truthy; a missing field, a `None`
value, and a legitimate price of 0 all yield `None` with one diagnostic
(the two situations are indistinguishable), and a library exception also
yields `None`. -/
theorem current_price_truthy_contract :
    ∀ (tk : YfTicker) (sym : String),
      (tk.info = .raises → fetch_current_price tk sym = (none, 1)) ∧
      (∀ (info : List (String × Json)), tk.info = .ok info →
        (info.lookup "regularMarketPrice" = none →
          fetch_current_price tk sym = (none, 1)) ∧
        (∀ (v : Json), info.lookup "regularMarketPrice" = some v →
          fetch_current_price tk sym =
            if v.truthy then (some v, 0) else (none, 1)) ∧
        (∀ (v : Json), fetch_current_price tk sym = (some v, 0) ↔
          info.lookup "regularMarketPrice" = some v ∧ v.truthy = true)) ∧
      (∀ (f : FinancialDataFetcher),
        get_indian_stock_price f tk sym = fetch_current_price tk sym) := by
  intro tk sym
  refine ⟨?_, ?_, fun f => rfl⟩
  · intro h
    simp [fetch_current_price, h]
  · intro info hi
    refine ⟨?_, ?_, ?_⟩
    · intro h
      simp [fetch_current_price, hi, h, Json.truthy]
    · intro v h
      simp [fetch_current_price, hi, h]
    · intro v
      constructor
      · intro hres
        rcases hl : info.lookup "regularMarketPrice" with _ | w
        · simp [fetch_current_price, hi, hl, Json.truthy] at hres
        · rcases hw : w.truthy with _ | _
          · simp [fetch_current_price, hi, hl, hw] at hres
          · simp [fetch_current_price, hi, hl, hw] at hres
            subst hres
            exact ⟨rfl, hw⟩
      · rintro ⟨hl, hw⟩
        simp [fetch_current_price, hi, hl, hw]

/-- Claim C5, witness: the theorem applied to a concrete info structure
with a zero price (falsy, hence indistinguishable from missing) and to
one with a nonzero price. -/
theorem current_price_truthy_contract_witness :
    fetch_current_price ⟨.ok [("regularMarketPrice", .num 0)],
      fun _ => .raises⟩ "INFY.NS" = (none, 1) ∧
    fetch_current_price ⟨.ok [("regularMarketPrice", .num 100)],
      fun _ => .raises⟩ "INFY.NS" = (some (.num 100), 0) := by
  constructor
  · have h := ((current_price_truthy_contract
      ⟨.ok [("regularMarketPrice", .num 0)], fun _ => .raises⟩
      "INFY.NS").2.1 [("regularMarketPrice", .num 0)] rfl).2.1
      (.num 0) rfl
    simpa [Json.truthy] using h
  · have h := ((current_price_truthy_contract
      ⟨.ok [("regularMarketPrice", .num 100)], fun _ => .raises⟩
      "INFY.NS").2.1 [("regularMarketPrice", .num 100)] rfl).2.1
      (.num 100) rfl
    simpa [Json.truthy] using h

/-- Claim C6: `fetch_historical_data` (and the delegating
`get_indian_stock_historical_data`) queries the library with the
explicit start/end dates iff both are given (truthy), otherwise with
period+interval; a non-empty library result is returned unchanged, an
empty result yields `None` with one diagnostic, and a library exception
is converted to `None` with one diagnostic, never propagated. -/
theorem historical_data_query_contract :
    ∀ (tk : YfTicker) (sym p i : String),
      (∀ (sd ed : String) (df : DataFrame), sd ≠ "" → ed ≠ "" →
        tk.history (.byDates sd ed i) = .ok df → df ≠ [] →
        fetch_historical_data tk sym (some sd) (some ed) p i = (some df, 0)) ∧
      (∀ (sd ed : String), sd ≠ "" → ed ≠ "" →
        tk.history (.byDates sd ed i) = .ok [] →
        fetch_historical_data tk sym (some sd) (some ed) p i = (none, 1)) ∧
      (∀ (sd ed : String), sd ≠ "" → ed ≠ "" →
        tk.history (.byDates sd ed i) = .raises →
        fetch_historical_data tk sym (some sd) (some ed) p i = (none, 1)) ∧
      (∀ (sd ed : Option String) (df : DataFrame),
        (optStrTruthy sd && optStrTruthy ed) = false →
        tk.history (.byPeriod p i) = .ok df → df ≠ [] →
        fetch_historical_data tk sym sd ed p i = (some df, 0)) ∧
      (∀ (sd ed : Option String),
        (optStrTruthy sd && optStrTruthy ed) = false →
        tk.history (.byPeriod p i) = .ok [] →
        fetch_historical_data tk sym sd ed p i = (none, 1)) ∧
      (∀ (sd ed : Option String),
        (optStrTruthy sd && optStrTruthy ed) = false →
        tk.history (.byPeriod p i) = .raises →
        fetch_historical_data tk sym sd ed p i = (none, 1)) ∧
      (∀ (f : FinancialDataFetcher) (sd ed : Option String),
        get_indian_stock_historical_data f tk sym sd ed p i =
          fetch_historical_data tk sym sd ed p i) := by
  intro tk sym p i
  refine ⟨?_, ?_, ?_, ?_, ?_, ?_, fun f sd ed => rfl⟩
  · intro sd ed df hsd hed hh hne
    rcases df with _ | ⟨r, rs⟩
    · exact absurd rfl hne
    · simp [fetch_historical_data, optStrTruthy, hsd, hed, hh]
  · intro sd ed hsd hed hh
    simp [fetch_historical_data, optStrTruthy, hsd, hed, hh]
  · intro sd ed hsd hed hh
    simp [fetch_historical_data, optStrTruthy, hsd, hed, hh]
  · intro sd ed df hf hh hne
    rcases df with _ | ⟨r, rs⟩
    · exact absurd rfl hne
    · simp [fetch_historical_data, hf, hh]
  · intro sd ed hf hh
    simp [fetch_historical_data, hf, hh]
  · intro sd ed hf hh
    simp [fetch_historical_data, hf, hh]

/-- Claim C6, witness: the theorem applied with concrete dates and a
one-row result, and with a period query raising inside the library. -/
theorem historical_data_query_contract_witness :
    fetch_historical_data ⟨.raises, fun _ => .ok [.null]⟩ "TATAMOTORS.NS"
      (some "2024-01-01") (some "2024-03-31") "1mo" "1d" = (some [.null], 0) ∧
    fetch_historical_data ⟨.raises, fun _ => .raises⟩ "TCS.NS"
      none none "1mo" "1d" = (none, 1) :=
  ⟨(historical_data_query_contract ⟨.raises, fun _ => .ok [.null]⟩
      "TATAMOTORS.NS" "1mo" "1d").1 "2024-01-01" "2024-03-31" [.null]
      (by decide) (by decide) rfl (List.cons_ne_nil _ _),
   (historical_data_query_contract ⟨.raises, fun _ => .raises⟩
      "TCS.NS" "1mo" "1d").2.2.2.2.2.1 none none rfl rfl⟩

/-- Claim C8: with the news credential set, `get_financial_news` on an
object body whose `status` is `"ok"` returns the raw value under
`"articles"` unchanged (hence in upstream order), or the empty list when
that key is absent; on any other `status` value, a missing `status`
field, or a gateway failure it returns the empty list — the absent
result is always the empty sequence. -/
theorem news_status_outcomes :
    ∀ (k : String), k ≠ "" →
      (∀ (kvs : List (String × Json)) (arts : Json),
        kvs.lookup "status" = some (.str "ok") →
        kvs.lookup "articles" = some arts →
        (get_financial_news ⟨some k⟩
          (.resp ⟨200, some (.obj kvs)⟩)).result = .ok arts) ∧
      (∀ (kvs : List (String × Json)),
        kvs.lookup "status" = some (.str "ok") →
        kvs.lookup "articles" = none →
        (get_financial_news ⟨some k⟩
          (.resp ⟨200, some (.obj kvs)⟩)).result = .ok (.arr [])) ∧
      (∀ (kvs : List (String × Json)) (st : Json),
        kvs.lookup "status" = some st → st.eqStr "ok" = false →
        (get_financial_news ⟨some k⟩
          (.resp ⟨200, some (.obj kvs)⟩)).result = .ok (.arr [])) ∧
      (∀ (kvs : List (String × Json)), kvs.lookup "status" = none →
        (get_financial_news ⟨some k⟩
          (.resp ⟨200, some (.obj kvs)⟩)).result = .ok (.arr [])) ∧
      (∀ (t : ReqResult), (make_request t).1 = none →
        (get_financial_news ⟨some k⟩ t).result = .ok (.arr [])) := by
  intro k hk
  have hg : optStrTruthy (some k) = true := by simp [optStrTruthy, hk]
  refine ⟨?_, ?_, ?_, ?_, ?_⟩
  · intro kvs arts hst harts
    rcases kvs with _ | ⟨⟨k0, v0⟩, rest⟩
    · simp [List.lookup] at hst
    · simp [get_financial_news, make_request, hg, Json.truthy, Json.getD,
        Json.eqStr, hst, harts]
  · intro kvs hst harts
    rcases kvs with _ | ⟨⟨k0, v0⟩, rest⟩
    · simp [List.lookup] at hst
    · simp [get_financial_news, make_request, hg, Json.truthy, Json.getD,
        Json.eqStr, hst, harts]
  · intro kvs st hst hne
    rcases kvs with _ | ⟨⟨k0, v0⟩, rest⟩
    · simp [List.lookup] at hst
    · simp [get_financial_news, make_request, hg, Json.truthy, Json.getD,
        hst, hne]
  · intro kvs hst
    rcases kvs with _ | ⟨⟨k0, v0⟩, rest⟩
    · simp [get_financial_news, make_request, hg, Json.truthy]
    · simp [get_financial_news, make_request, hg, Json.truthy, Json.getD,
        Json.eqStr, hst]
  · intro t ht
    simp [get_financial_news, hg, ht]

/-- Claim C8, witness: the theorem applied at the spec's two-article
body (order preserved) and at the error-status body, plus a gateway
timeout. -/
theorem news_status_outcomes_witness :
    (get_financial_news ⟨some "k"⟩ (.resp ⟨200, some (.obj
      [("status", .str "ok"), ("articles", .arr [.obj [("title", .str "A")],
        .obj [("title", .str "B")]])])⟩)).result =
      .ok (.arr [.obj [("title", .str "A")], .obj [("title", .str "B")]]) ∧
    (get_financial_news ⟨some "k"⟩ (.resp ⟨200, some (.obj
      [("status", .str "error"),
       ("message", .str "rate limited")])⟩)).result = .ok (.arr []) ∧
    (get_financial_news ⟨some "k"⟩ .timeout).result = .ok (.arr []) :=
  ⟨(news_status_outcomes "k" (by decide)).1
      [("status", .str "ok"), ("articles", .arr [.obj [("title", .str "A")],
        .obj [("title", .str "B")]])]
      (.arr [.obj [("title", .str "A")], .obj [("title", .str "B")]])
      rfl rfl,
   (news_status_outcomes "k" (by decide)).2.2.1
      [("status", .str "error"), ("message", .str "rate limited")]
      (.str "error") rfl rfl,
   (news_status_outcomes "k" (by decide)).2.2.2.2 .timeout rfl⟩

end FinanceAgent
